import Mathlib

/-!
Verification of the access-hood client gate: digest utility, storage key
derivation, the cached local-persistence gate, and the remote verification
client.  Each definition is a shallow embedding of the corresponding
TypeScript function; theorems check the specified properties against them.
-/

set_option maxHeartbeats 1000000

namespace AccessHood

/-- Association-list lookup.  Models `Map.prototype.get` and
`localStorage.getItem` (which return `undefined` / `null`, modelled as
`none`, when the key is absent). -/
def getEntry {α : Type} : List (String × α) → String → Option α
  | [], _ => none
  | (k, v) :: rest, k' => if k = k' then some v else getEntry rest k'

/-- Association-list update.  Models `Map.prototype.set` and
`localStorage.setItem`: overwrites an existing binding, otherwise appends. -/
def setEntry {α : Type} : List (String × α) → String → α → List (String × α)
  | [], k, v => [(k, v)]
  | (k0, v0) :: rest, k, v =>
    if k0 = k then (k, v) :: rest else (k0, v0) :: setEntry rest k v

/-- Models JavaScript `n.toString(16)` on a non-negative integer: minimal
lowercase hexadecimal representation, with `0` rendered as `"0"`. -/
def toHexString (n : Nat) : String :=
  String.mk (Nat.toDigits 16 n)

/-- Models `String.prototype.padStart(len, c)` for a single pad character:
left-pads to length `len`, returning the string unchanged when already at
least that long. -/
def padStart (s : String) (len : Nat) (c : Char) : String :=
  String.mk (List.replicate (len - s.data.length) c ++ s.data)

/-- The character codes of a string, modelling `charCodeAt` over every index.
The embedding works at code-point granularity (identical to UTF-16 code units
for strings of basic-plane characters). -/
def charCodes (s : String) : List Nat :=
  s.data.map Char.toNat

/-- The `for` loop of `hashString`'s fallback path, from `authStorage.ts`:
`acc = (acc * 31 + input.charCodeAt(i)) >>> 0` for each index `i`.  The
`>>> 0` coercion is unsigned 32-bit wraparound, i.e. `% 2^32`. -/
def hashLoop : Nat → List Nat → Nat
  | acc, [] => acc
  | acc, c :: cs => hashLoop ((acc * 31 + c) % 4294967296) cs

/-- Models `toHex` from `authStorage.ts`: each byte rendered as
`b.toString(16).padStart(2, "0")`, concatenated. -/
def toHex (bytes : List Nat) : String :=
  String.join (bytes.map (fun b => padStart (toHexString b) 2 '0'))

/-- Runtime hashing capabilities: whether a `window` object exists, and the
`window.crypto.subtle` digest primitive when available (modelled abstractly
as a function from the input string to the digest bytes). -/
structure HashCtx where
  hasWindow : Bool
  subtle : Option (String → List Nat)

/-- Models `hashString` from `authStorage.ts`: when a window and a subtle
crypto primitive exist, the hex encoding of the digest bytes; otherwise the
rolling-hash fallback `acc = (acc * 31 + charCode) >>> 0`, hex-encoded and
zero-padded to 8 characters. -/
def hashString (ctx : HashCtx) (input : String) : String :=
  match ctx.hasWindow, ctx.subtle with
  | true, some digest => toHex (digest input)
  | _, _ => padStart (toHexString (hashLoop 0 (charCodes input))) 8 '0'

/-- The compiled-in salt constant from `authStorage.ts`. -/
def STORAGE_SALT : String := "ah_salt_v1"

/-- Models `String.prototype.slice(0, n)`: the first `n` characters. -/
def jsSlice (s : String) (n : Nat) : String :=
  String.mk (s.data.take n)

/-- Models `deriveStorageKey` from `authStorage.ts`. -/
def deriveStorageKey (ctx : HashCtx) (identifier : String) : String :=
  "k_" ++ jsSlice (hashString ctx ("key:" ++ identifier ++ ":" ++ STORAGE_SALT)) 24

/-- Models `deriveStorageValue` from `authStorage.ts`. -/
def deriveStorageValue (ctx : HashCtx) (identifier : String) : String :=
  "v_" ++ jsSlice (hashString ctx ("val:" ++ identifier ++ ":" ++ STORAGE_SALT)) 16

/-- Models `getAuthKeyAndValue` from `authStorage.ts`: the derived pair. -/
def getAuthKeyAndValue (ctx : HashCtx) (identifier : String) : String × String :=
  (deriveStorageKey ctx identifier, deriveStorageValue ctx identifier)

/-- The state shared by the persistence gate: the persistent key/value store
(`localStorage`) and the in-memory authorization cache (`authedCache`, a
`Map` from password to boolean), both modelled as association lists. -/
structure AuthState where
  store : List (String × String)
  cache : List (String × Bool)
deriving DecidableEq

/-- The runtime environment of one gate operation: hashing capabilities plus
fault flags for the operations that can throw.  `hashOk = false` models the
subtle-crypto digest promise rejecting inside `getAuthKeyAndValue`;
`getOk = false` / `setOk = false` model `localStorage.getItem` /
`localStorage.setItem` throwing. -/
structure AuthEnv where
  hash : HashCtx
  hashOk : Bool
  getOk : Bool
  setOk : Bool

/-- Result of one `readIsAuthed` call: the returned boolean, the state after
the call, and the number of invocations of the persistent storage backend
(`localStorage.getItem`), counting calls that throw. -/
structure ReadOutcome where
  result : Bool
  state : AuthState
  storeGets : Nat
deriving DecidableEq

/-- Models `readIsAuthed` from `authStorage.ts` (the cached, per-password
variant): return `false` without touching anything on SSR (`no window`);
return the cached boolean on a cache hit; otherwise derive the pair, read
`localStorage`, compare, record the boolean in the cache and return it.  Any
throw from hashing or storage is caught and yields `false`. -/
def readIsAuthed (env : AuthEnv) (st : AuthState) (password : String) : ReadOutcome :=
  if env.hash.hasWindow = false then ⟨false, st, 0⟩
  else
    match getEntry st.cache password with
    | some cached => ⟨cached, st, 0⟩
    | none =>
      if env.hashOk = false then ⟨false, st, 0⟩
      else
        let kv := getAuthKeyAndValue env.hash password
        if env.getOk = false then ⟨false, st, 1⟩
        else
          let stored := getEntry st.store kv.1
          let ok := stored = some kv.2
          ⟨ok, ⟨st.store, setEntry st.cache password ok⟩, 1⟩

/-- Models `writeAuthed` from `authStorage.ts`: no-op on SSR; derive the
pair (outer `try` swallows a hashing throw); write `key -> value` to
`localStorage` and only then mark the cache `true` (the inner `try` means a
`setItem` throw leaves the cache untouched). -/
def writeAuthed (env : AuthEnv) (st : AuthState) (password : String) : AuthState :=
  if env.hash.hasWindow = false then st
  else if env.hashOk = false then st
  else
    let kv := getAuthKeyAndValue env.hash password
    if env.setOk = false then st
    else ⟨setEntry st.store kv.1 kv.2, setEntry st.cache password true⟩

/-- A gate operation: one `readIsAuthed` or one `writeAuthed` call. -/
inductive AuthOp where
  | read (password : String)
  | write (password : String)
deriving DecidableEq

/-- The state transition of one gate operation. -/
def runOp (env : AuthEnv) (st : AuthState) : AuthOp → AuthState
  | .read pw => (readIsAuthed env st pw).state
  | .write pw => writeAuthed env st pw

/-- Runs a sequence of gate operations, each under its own environment. -/
def runOps : AuthState → List (AuthEnv × AuthOp) → AuthState
  | st, [] => st
  | st, (env, op) :: rest => runOps (runOp env st op) rest

/-- The closed failure taxonomy of `remoteVerify.ts`.  Spec vocabulary:
`NO_BASE_URL` = endpoint-not-configured, `NO_WINDOW` = no-runtime-context,
`NETWORK` = network-failure, `TIMEOUT` = timeout, `BAD_STATUS` = bad-status,
`BAD_RESPONSE` = bad-response. -/
inductive RemoteVerifyFailureReason where
  | NO_BASE_URL
  | NO_WINDOW
  | NETWORK
  | TIMEOUT
  | BAD_STATUS
  | BAD_RESPONSE
deriving DecidableEq

/-- Models `RemoteVerifyResult`: `{ok: true, valid}` or `{ok: false, reason}`. -/
inductive RemoteVerifyResult where
  | success (valid : Bool)
  | failure (reason : RemoteVerifyFailureReason)
deriving DecidableEq

/-- A thrown JavaScript value, as far as the `catch` clause of
`verifyPasswordRemotely` inspects it: whether it is a non-null object,
whether it has a `name` property, and that property's value. -/
structure JsError where
  isObject : Bool
  hasName : Bool
  name : String
deriving DecidableEq

/-- The test the `catch` clause applies:
`typeof error === "object" && error !== null && "name" in error &&
error.name === "AbortError"`. -/
def isAbortError (e : JsError) : Bool :=
  e.isObject && e.hasName && (e.name = "AbortError")

/-- A JSON value as produced by `response.json()`. -/
inductive JsonValue where
  | jnull
  | jbool (b : Bool)
  | jnum (n : Int)
  | jstr (s : String)
  | jarr (xs : List JsonValue)
  | jobj (fields : List (String × JsonValue))

/-- `typeof v === "object"` for a parsed JSON value: true exactly for
`null`, arrays and objects. -/
def isObjectType : JsonValue → Bool
  | .jnull => true
  | .jarr _ => true
  | .jobj _ => true
  | _ => false

/-- `v === null` for a parsed JSON value. -/
def isNull : JsonValue → Bool
  | .jnull => true
  | _ => false

/-- Property lookup `v[k]` on a parsed JSON value: a field of an object,
`undefined` (`none`) otherwise. -/
def jsonField : JsonValue → String → Option JsonValue
  | .jobj fields, k => getEntry fields k
  | _, _ => none

/-- `typeof x === "boolean" ? x : undefined` on an optional JSON value. -/
def boolField : Option JsonValue → Option Bool
  | some (.jbool b) => some b
  | _ => none

/-- The outcome of the dispatched `fetch`: either the promise resolves with
a response (status-ok flag and a body that `response.json()` parses to
`some` value or fails to parse, `none`), or it rejects with a thrown value. -/
inductive FetchResult where
  | resp (ok : Bool) (body : Option JsonValue)
  | err (e : JsError)

/-- Default verification path from `config.ts`. -/
def DEFAULT_VERIFY_PATH : String := "/ah-verify"

/-- The environment of one `verifyPasswordRemotely` call: runtime context,
the relevant configuration fields, the behaviour of the `new URL(path, base)`
constructor (`none` models it throwing), and the outcome of the dispatched
request. -/
structure VerifyEnv where
  hasWindow : Bool
  baseUrl : Option String
  verifyPath : Option String
  resolveUrl : String → String → Option String
  fetchResult : FetchResult

/-- Models `buildVerifyUrl` from `remoteVerify.ts`: `undefined` when the
configured base URL is absent or empty (falsy), otherwise
`new URL(verifyPath ?? DEFAULT_VERIFY_PATH, baseUrl)`, with a constructor
throw also yielding `undefined`. -/
def buildVerifyUrl (env : VerifyEnv) : Option String :=
  match env.baseUrl with
  | none => none
  | some base =>
    if base = "" then none
    else env.resolveUrl (env.verifyPath.getD DEFAULT_VERIFY_PATH) base

/-- The observable trace of one `verifyPasswordRemotely` call: its result,
whether the timeout timer was started (`setTimeout`) and cleared
(`clearTimeout` in the `finally` clause), whether `fetch` was invoked, and
whether the response body was read (`response.json()`). -/
structure VerifyTrace where
  result : RemoteVerifyResult
  timerSet : Bool
  timerCleared : Bool
  fetched : Bool
  bodyRead : Bool
deriving DecidableEq

/-- Models `verifyPasswordRemotely` from `remoteVerify.ts`: precondition
check, URL resolution, dispatch with timer, then status check, body parse,
shape validation, and the catch-clause classification of thrown values; the
`finally` clause clears the timer on every dispatch-reaching path. -/
def verifyPasswordRemotely (env : VerifyEnv) : VerifyTrace :=
  if env.hasWindow = false then ⟨.failure .NO_WINDOW, false, false, false, false⟩
  else
    match buildVerifyUrl env with
    | none => ⟨.failure .NO_BASE_URL, false, false, false, false⟩
    | some _ =>
      match env.fetchResult with
      | .err e =>
        ⟨.failure (if isAbortError e then .TIMEOUT else .NETWORK), true, true, true, false⟩
      | .resp ok body =>
        if ok = false then ⟨.failure .BAD_STATUS, true, true, true, false⟩
        else
          match body with
          | none => ⟨.failure .BAD_RESPONSE, true, true, true, true⟩
          | some data =>
            if isObjectType data = false then ⟨.failure .BAD_RESPONSE, true, true, true, true⟩
            else if isNull data then ⟨.failure .BAD_RESPONSE, true, true, true, true⟩
            else
              match boolField (jsonField data "valid") with
              | none => ⟨.failure .BAD_RESPONSE, true, true, true, true⟩
              | some valid => ⟨.success valid, true, true, true, true⟩

/-- Lowercase hexadecimal digit test: a decimal digit or a letter between
`a` and `f`. -/
def isLowerHexDigit (c : Char) : Bool :=
  (c.isDigit || ('a' ≤ c && c ≤ 'f'))

/-! ### Concrete environments and states used by witnesses -/

/-- A browser-like environment whose hashing and storage operations succeed
(no subtle crypto, so the computable fallback digest is used). -/
def winEnv : AuthEnv := ⟨⟨true, none⟩, true, true, true⟩

/-- A server-side environment: no `window`. -/
def noWinEnv : AuthEnv := ⟨⟨false, none⟩, true, true, true⟩

/-- A browser-like environment whose `localStorage.getItem` throws. -/
def getFailEnv : AuthEnv := ⟨⟨true, none⟩, true, false, true⟩

/-- Empty store, empty cache. -/
def emptyState : AuthState := ⟨[], []⟩

/-- A state whose store already holds the derived pair for password `"pw"`
(as a previous visit would have left it), with an empty cache. -/
def authedState : AuthState :=
  ⟨[(deriveStorageKey ⟨true, none⟩ "pw", deriveStorageValue ⟨true, none⟩ "pw")], []⟩

/-- A dispatch-reaching environment whose request rejects with a DOM-style
abort error. -/
def abortEnv : VerifyEnv :=
  ⟨true, some "https://api.example.com", none, fun p b => some (b ++ p),
    .err ⟨true, true, "AbortError"⟩⟩

/-- A dispatch-reaching environment whose request rejects with an ordinary
network error (an object named differently). -/
def netFailEnv : VerifyEnv :=
  ⟨true, some "https://api.example.com", none, fun p b => some (b ++ p),
    .err ⟨true, true, "TypeError"⟩⟩

/-- A server-side call: no window, and also no configured base URL (the
result is still `NO_WINDOW`, showing the precondition check comes first). -/
def noWinVerifyEnv : VerifyEnv :=
  ⟨false, none, none, fun _ _ => none, .err ⟨false, false, ""⟩⟩

/-- A windowed call with no base URL configured. -/
def noBaseEnv : VerifyEnv :=
  ⟨true, none, none, fun p b => some (b ++ p),
    .resp true (some (.jobj [("valid", .jbool true)]))⟩

/-- A windowed call whose `new URL(path, base)` throws (malformed base). -/
def badUrlEnv : VerifyEnv :=
  ⟨true, some "::not-a-url::", none, fun _ _ => none, .err ⟨false, false, ""⟩⟩

/-- A dispatch-reaching environment returning status 200 with body
`{"ok": true}` — the spec's bad-shape example (missing `valid`). -/
def badShapeEnv : VerifyEnv :=
  ⟨true, some "https://api.example.com", none, fun p b => some (b ++ p),
    .resp true (some (.jobj [("ok", .jbool true)]))⟩

/-- A dispatch-reaching environment returning status 200 with body
`{"valid": true}`. -/
def happyEnv : VerifyEnv :=
  ⟨true, some "https://api.example.com", none, fun p b => some (b ++ p),
    .resp true (some (.jobj [("valid", .jbool true)]))⟩

/-- A dispatch-reaching environment returning a non-ok status. -/
def badStatusEnv : VerifyEnv :=
  ⟨true, some "https://api.example.com", none, fun p b => some (b ++ p),
    .resp false none⟩

/-- A dispatch-reaching environment whose ok-status body fails to parse. -/
def parseFailEnv : VerifyEnv :=
  ⟨true, some "https://api.example.com", none, fun p b => some (b ++ p),
    .resp true none⟩

/-! ### Helper lemmas -/

theorem data_append (s t : String) : (s ++ t).data = s.data ++ t.data := rfl

theorem data_k : "k_".data = ['k', '_'] := rfl

theorem hashLoop_eq_foldl (cs : List Nat) (acc : Nat) :
    hashLoop acc cs = cs.foldl (fun a c => (a * 31 + c) % 2 ^ 32) acc := by
  induction cs generalizing acc with
  | nil => rfl
  | cons c cs ih => simp [hashLoop, List.foldl, ih]

theorem hashLoop_lt (cs : List Nat) (acc : Nat) (h : acc < 4294967296) :
    hashLoop acc cs < 4294967296 := by
  induction cs generalizing acc with
  | nil => exact h
  | cons c cs ih => exact ih _ (Nat.mod_lt _ (by norm_num))

theorem toHexString_length_le (n : Nat) (h : n < 4294967296) :
    (toHexString n).data.length ≤ 8 := by
  have := Nat.toDigitsCore_length 16 (by norm_num) (n + 1) n 8 (by norm_num at *; omega)
    (by norm_num)
  simpa [toHexString, Nat.toDigits] using this

theorem padStart_length (s : String) (len : Nat) (c : Char) (h : s.data.length ≤ len) :
    (padStart s len c).data.length = len := by
  cases s with
  | mk l =>
    simp only [padStart, List.length_append, List.length_replicate] at *
    omega

theorem digitChar_hex (m : Nat) (h : m < 16) : isLowerHexDigit (Nat.digitChar m) = true := by
  interval_cases m <;> decide

theorem toDigitsCore_hex (f : Nat) : ∀ (n : Nat) (l : List Char),
    (∀ c ∈ l, isLowerHexDigit c = true) →
    ∀ c ∈ Nat.toDigitsCore 16 f n l, isLowerHexDigit c = true := by
  induction f with
  | zero => intro n l hl; simpa [Nat.toDigitsCore] using hl
  | succ f ih =>
    intro n l hl c hc
    simp only [Nat.toDigitsCore] at hc
    by_cases hz : n / 16 = 0
    · simp only [hz, if_pos rfl] at hc
      rcases List.mem_cons.mp hc with h | h
      · subst h; exact digitChar_hex _ (Nat.mod_lt _ (by norm_num))
      · exact hl _ h
    · rw [if_neg hz] at hc
      refine ih _ _ ?_ _ hc
      intro d hd
      rcases List.mem_cons.mp hd with h | h
      · subst h; exact digitChar_hex _ (Nat.mod_lt _ (by norm_num))
      · exact hl _ h

theorem toHexString_hex (n : Nat) :
    ∀ c ∈ (toHexString n).data, isLowerHexDigit c = true := by
  intro c hc
  exact toDigitsCore_hex (n + 1) n [] (by simp) c (by simpa [toHexString, Nat.toDigits] using hc)

theorem jsSlice_of_length_le (s : String) (n : Nat) (h : s.data.length ≤ n) :
    jsSlice s n = s := by
  cases s with
  | mk data => simp [jsSlice, List.take_of_length_le h]

/-- The fallback digest: 8 characters, all lowercase hex. -/
theorem fallback_digest_shape (s : String) :
    (padStart (toHexString (hashLoop 0 (charCodes s))) 8 '0').data.length = 8 ∧
    ∀ c ∈ (padStart (toHexString (hashLoop 0 (charCodes s))) 8 '0').data,
      isLowerHexDigit c = true := by
  have hlt := hashLoop_lt (charCodes s) 0 (by norm_num)
  have hlen := toHexString_length_le _ hlt
  refine ⟨padStart_length _ _ _ (hlen.trans (by norm_num)), ?_⟩
  intro c hc
  simp only [padStart] at hc
  rcases List.mem_append.mp hc with h | h
  · rw [List.eq_of_mem_replicate h]; decide
  · exact toHexString_hex _ c h

theorem hashString_fallback (ctx : HashCtx) (s : String)
    (h : ctx.hasWindow = false ∨ ctx.subtle = none) :
    hashString ctx s = padStart (toHexString (hashLoop 0 (charCodes s))) 8 '0' := by
  obtain ⟨hw, sub⟩ := ctx
  rcases h with h | h
  · simp only at h; subst h; cases sub <;> rfl
  · simp only at h; subst h; cases hw <;> rfl

theorem derive_key_ne_value (ctx : HashCtx) (identifier : String) :
    deriveStorageKey ctx identifier ≠ deriveStorageValue ctx identifier := by
  intro h
  have hd := congrArg String.data h
  simp only [deriveStorageKey, deriveStorageValue, data_append] at hd
  exact absurd (List.head_eq_of_cons_eq hd) (by decide)

/-! ### Claims about the digest utility and key derivation -/

/-- C2: for every storage identifier (and any hashing context, i.e. any
hash algorithm), the derived pair is `key = "k_" ++` the first 24 hex
characters of `digest("key:" ++ id ++ ":" ++ SALT)` and `value = "v_" ++`
the first 16 hex characters of `digest("val:" ++ id ++ ":" ++ SALT)`, where
`SALT` is the compiled-in constant `"ah_salt_v1"`.  Repeatability for a
fixed identifier, salt and algorithm is purity: the derivation is a function
of exactly these inputs. -/
theorem claim_C2_derived_pair (ctx : HashCtx) (identifier : String) :
    STORAGE_SALT = "ah_salt_v1" ∧
    getAuthKeyAndValue ctx identifier =
      (deriveStorageKey ctx identifier, deriveStorageValue ctx identifier) ∧
    (deriveStorageKey ctx identifier).data =
      'k' :: '_' :: (hashString ctx ("key:" ++ identifier ++ ":" ++ STORAGE_SALT)).data.take 24 ∧
    (deriveStorageValue ctx identifier).data =
      'v' :: '_' :: (hashString ctx ("val:" ++ identifier ++ ":" ++ STORAGE_SALT)).data.take 16 :=
  ⟨rfl, rfl, rfl, rfl⟩

/-- C3: with no secure hashing primitive or no window, `hashString` equals
the rolling hash folding `acc = (acc * 31 + charCode) mod 2^32` over the
character codes starting from 0, hex-encoded and zero-padded to 8 chars. -/
theorem claim_C3_fallback_hash (ctx : HashCtx) (s : String)
    (h : ctx.hasWindow = false ∨ ctx.subtle = none) :
    hashString ctx s =
      padStart (toHexString ((charCodes s).foldl (fun acc c => (acc * 31 + c) % 2 ^ 32) 0))
        8 '0' := by
  rw [hashString_fallback ctx s h, hashLoop_eq_foldl]

/-- Witness for C3 at a concrete fallback context and input. -/
theorem claim_C3_witness :
    (hashString ⟨false, none⟩ "pw" =
      padStart (toHexString ((charCodes "pw").foldl (fun acc c => (acc * 31 + c) % 2 ^ 32) 0))
        8 '0') ∧
    hashString ⟨false, none⟩ "pw" = "00000e07" :=
  ⟨claim_C3_fallback_hash ⟨false, none⟩ "pw" (Or.inl rfl), by decide⟩

/-- C9: under the fallback, every digest is exactly 8 lowercase hex
characters (the empty string hashing to `"00000000"`); hence the key and
value suffixes are the full 8-character digest (below the 24/16 truncation
lengths), and key and value still differ. -/
theorem claim_C9_fallback_digest (ctx : HashCtx) (s identifier : String)
    (h : ctx.hasWindow = false ∨ ctx.subtle = none) :
    (hashString ctx s).data.length = 8 ∧
    (∀ c ∈ (hashString ctx s).data, isLowerHexDigit c = true) ∧
    hashString ctx "" = "00000000" ∧
    deriveStorageKey ctx identifier =
      "k_" ++ hashString ctx ("key:" ++ identifier ++ ":" ++ STORAGE_SALT) ∧
    deriveStorageValue ctx identifier =
      "v_" ++ hashString ctx ("val:" ++ identifier ++ ":" ++ STORAGE_SALT) ∧
    deriveStorageKey ctx identifier ≠ deriveStorageValue ctx identifier := by
  have hlen : ∀ t : String, (hashString ctx t).data.length = 8 := by
    intro t
    rw [hashString_fallback ctx t h]
    exact (fallback_digest_shape t).1
  refine ⟨hlen s, ?_, ?_, ?_, ?_, derive_key_ne_value ctx identifier⟩
  · intro c hc
    rw [hashString_fallback ctx s h] at hc
    exact (fallback_digest_shape s).2 c hc
  · rw [hashString_fallback ctx "" h]
    decide
  · unfold deriveStorageKey
    rw [jsSlice_of_length_le _ _ (by rw [hlen]; norm_num)]
  · unfold deriveStorageValue
    rw [jsSlice_of_length_le _ _ (by rw [hlen]; norm_num)]

/-- Witness for C9 at a concrete fallback context and identifier. -/
theorem claim_C9_witness :
    (hashString ⟨false, none⟩ "pw").data.length = 8 ∧
    hashString ⟨false, none⟩ "" = "00000000" ∧
    deriveStorageKey ⟨false, none⟩ "pw" =
      "k_" ++ hashString ⟨false, none⟩ ("key:" ++ "pw" ++ ":" ++ STORAGE_SALT) ∧
    deriveStorageKey ⟨false, none⟩ "pw" = "k_ca83d864" ∧
    deriveStorageValue ⟨false, none⟩ "pw" = "v_2b6485a6" ∧
    deriveStorageKey ⟨false, none⟩ "pw" ≠ deriveStorageValue ⟨false, none⟩ "pw" :=
  ⟨(claim_C9_fallback_digest ⟨false, none⟩ "pw" "pw" (Or.inl rfl)).1,
   (claim_C9_fallback_digest ⟨false, none⟩ "pw" "pw" (Or.inl rfl)).2.2.1,
   (claim_C9_fallback_digest ⟨false, none⟩ "pw" "pw" (Or.inl rfl)).2.2.2.1,
   by decide, by decide,
   (claim_C9_fallback_digest ⟨false, none⟩ "pw" "pw" (Or.inl rfl)).2.2.2.2.2⟩

/-! ### Association-list and gate lemmas -/

theorem getEntry_setEntry_self {α : Type} (l : List (String × α)) (k : String) (v : α) :
    getEntry (setEntry l k v) k = some v := by
  induction l with
  | nil => simp [setEntry, getEntry]
  | cons p rest ih =>
    obtain ⟨k0, v0⟩ := p
    by_cases h : k0 = k
    · simp [setEntry, h, getEntry]
    · simp [setEntry, h, getEntry, ih]

theorem getEntry_setEntry_ne {α : Type} (l : List (String × α)) (k k' : String) (v : α)
    (h : k ≠ k') : getEntry (setEntry l k v) k' = getEntry l k' := by
  induction l with
  | nil => simp [setEntry, getEntry, h]
  | cons p rest ih =>
    obtain ⟨k0, v0⟩ := p
    by_cases h0 : k0 = k
    · subst h0
      simp [setEntry, getEntry, h]
    · simp [setEntry, h0, getEntry, ih]

/-- A cache hit returns the cached boolean, leaves the state untouched and
never reaches the storage backend. -/
theorem read_cache_hit (env : AuthEnv) (st : AuthState) (pw : String) (r : Bool)
    (hw : env.hash.hasWindow = true) (hc : getEntry st.cache pw = some r) :
    readIsAuthed env st pw = ⟨r, st, 0⟩ := by
  simp [readIsAuthed, hw, hc]

/-- A read for any password preserves any existing cache entry. -/
theorem read_preserves_cache (env : AuthEnv) (st : AuthState) (pw' pw : String) (r : Bool)
    (h : getEntry st.cache pw = some r) :
    getEntry (readIsAuthed env st pw').state.cache pw = some r := by
  by_cases hw : env.hash.hasWindow = false
  · simp [readIsAuthed, hw, h]
  · cases hcc : getEntry st.cache pw' with
    | some b => simp [readIsAuthed, hw, hcc, h]
    | none =>
      by_cases hh : env.hashOk = false
      · simp [readIsAuthed, hw, hcc, hh, h]
      · by_cases hg : env.getOk = false
        · simp [readIsAuthed, hw, hcc, hh, hg, h]
        · have hne : pw' ≠ pw := by
            intro he
            rw [he, h] at hcc
            cases hcc
          simp [readIsAuthed, hw, hcc, hh, hg, getEntry_setEntry_ne _ _ _ _ hne, h]

/-- A write for any password preserves a `true` cache entry. -/
theorem write_preserves_cache_true (env : AuthEnv) (st : AuthState) (pw' pw : String)
    (h : getEntry st.cache pw = some true) :
    getEntry (writeAuthed env st pw').cache pw = some true := by
  by_cases hw : env.hash.hasWindow = false
  · simp [writeAuthed, hw, h]
  · by_cases hh : env.hashOk = false
    · simp [writeAuthed, hw, hh, h]
    · by_cases hs : env.setOk = false
      · simp [writeAuthed, hw, hh, hs, h]
      · by_cases hne : pw' = pw
        · subst hne
          simp [writeAuthed, hw, hh, hs, getEntry_setEntry_self]
        · simp [writeAuthed, hw, hh, hs, getEntry_setEntry_ne _ _ _ _ hne, h]

/-- A write for a different password preserves any cache entry. -/
theorem write_preserves_cache_ne (env : AuthEnv) (st : AuthState) (pw' pw : String) (r : Bool)
    (hne : pw' ≠ pw) (h : getEntry st.cache pw = some r) :
    getEntry (writeAuthed env st pw').cache pw = some r := by
  by_cases hw : env.hash.hasWindow = false
  · simp [writeAuthed, hw, h]
  · by_cases hh : env.hashOk = false
    · simp [writeAuthed, hw, hh, h]
    · by_cases hs : env.setOk = false
      · simp [writeAuthed, hw, hh, hs, h]
      · simp [writeAuthed, hw, hh, hs, getEntry_setEntry_ne _ _ _ _ hne, h]

/-- A `true` cache entry survives any sequence of gate operations. -/
theorem runOps_preserves_cache_true (ops : List (AuthEnv × AuthOp)) :
    ∀ (st : AuthState) (pw : String), getEntry st.cache pw = some true →
      getEntry (runOps st ops).cache pw = some true := by
  induction ops with
  | nil => intro st pw h; exact h
  | cons p rest ih =>
    intro st pw h
    obtain ⟨env, op⟩ := p
    cases op with
    | read pw' =>
      simp only [runOps, runOp]
      exact ih _ _ (read_preserves_cache env st pw' pw true h)
    | write pw' =>
      simp only [runOps, runOp]
      exact ih _ _ (write_preserves_cache_true env st pw' pw h)

/-- Any cache entry survives a sequence of gate operations that contains no
write for its password. -/
theorem runOps_preserves_cache_noWrite (ops : List (AuthEnv × AuthOp)) :
    ∀ (st : AuthState) (pw : String) (r : Bool), getEntry st.cache pw = some r →
      (∀ p ∈ ops, p.2 ≠ AuthOp.write pw) →
      getEntry (runOps st ops).cache pw = some r := by
  induction ops with
  | nil => intro st pw r h _; exact h
  | cons p rest ih =>
    intro st pw r h hops
    obtain ⟨env, op⟩ := p
    have hrest : ∀ p ∈ rest, p.2 ≠ AuthOp.write pw := fun q hq =>
      hops q (List.mem_cons_of_mem _ hq)
    cases op with
    | read pw' =>
      simp only [runOps, runOp]
      exact ih _ _ _ (read_preserves_cache env st pw' pw r h) hrest
    | write pw' =>
      have hne : pw' ≠ pw := by
        intro he
        exact hops (env, AuthOp.write pw') (List.mem_cons_self _ _) (by rw [he])
      simp only [runOps, runOp]
      exact ih _ _ _ (write_preserves_cache_ne env st pw' pw r hne h) hrest

/-- A read that completes its comparison (window present, hashing and
storage succeed) leaves its own result in the cache. -/
theorem read_success_caches (env : AuthEnv) (st : AuthState) (pw : String)
    (hw : env.hash.hasWindow = true) (hh : env.hashOk = true) (hg : env.getOk = true) :
    getEntry (readIsAuthed env st pw).state.cache pw =
      some (readIsAuthed env st pw).result := by
  cases hcc : getEntry st.cache pw with
  | some b => simp [readIsAuthed, hw, hcc]
  | none => simp [readIsAuthed, hw, hcc, hh, hg, getEntry_setEntry_self]

/-! ### Claims about the persistence gate -/

/-- C4: if `writeAuthed` completes successfully (window present, hashing and
the storage write succeed), then after any sequence of further gate
operations, a subsequent `readIsAuthed` for the same identifier in a
windowed context returns `true`. -/
theorem claim_C4_write_then_read (env env' : AuthEnv) (st : AuthState) (identifier : String)
    (ops : List (AuthEnv × AuthOp))
    (hw : env.hash.hasWindow = true) (hh : env.hashOk = true) (hs : env.setOk = true)
    (hw' : env'.hash.hasWindow = true) :
    (readIsAuthed env' (runOps (writeAuthed env st identifier) ops) identifier).result =
      true := by
  have h1 : getEntry (writeAuthed env st identifier).cache identifier = some true := by
    simp [writeAuthed, hw, hh, hs, getEntry_setEntry_self]
  have h2 := runOps_preserves_cache_true ops _ identifier h1
  rw [read_cache_hit env' _ identifier true hw' h2]

/-- Witness for C4: a successful write followed by unrelated operations,
then a read of the same identifier. -/
theorem claim_C4_witness :
    (readIsAuthed winEnv
        (runOps (writeAuthed winEnv emptyState "pw")
          [(winEnv, AuthOp.read "other"), (getFailEnv, AuthOp.read "pw")]) "pw").result =
      true ∧
    readIsAuthed winEnv (writeAuthed winEnv emptyState "pw") "pw" =
      ⟨true, writeAuthed winEnv emptyState "pw", 0⟩ :=
  ⟨claim_C4_write_then_read winEnv winEnv emptyState "pw" _ rfl rfl rfl rfl, by decide⟩

/-- C5: `readIsAuthed` fails closed: it returns `false` on SSR (no window),
returns `false` when hashing or the storage read throws, and returns `false`
for an identifier with no stored authorization state; it never throws (the
embedding is a total function). -/
theorem claim_C5_read_fails_closed (env : AuthEnv) (st : AuthState) (identifier : String) :
    (env.hash.hasWindow = false → readIsAuthed env st identifier = ⟨false, st, 0⟩) ∧
    (getEntry st.cache identifier = none → (env.hashOk = false ∨ env.getOk = false) →
      (readIsAuthed env st identifier).result = false) ∧
    (getEntry st.cache identifier = none →
      getEntry st.store (deriveStorageKey env.hash identifier) = none →
      (readIsAuthed env st identifier).result = false) := by
  refine ⟨?_, ?_, ?_⟩
  · intro hw
    simp [readIsAuthed, hw]
  · intro hc herr
    by_cases hw : env.hash.hasWindow = false
    · simp [readIsAuthed, hw]
    · rcases herr with hh | hg
      · simp [readIsAuthed, hw, hc, hh]
      · by_cases hh : env.hashOk = false
        · simp [readIsAuthed, hw, hc, hh]
        · simp [readIsAuthed, hw, hc, hh, hg]
  · intro hc hstore
    by_cases hw : env.hash.hasWindow = false
    · simp [readIsAuthed, hw]
    · by_cases hh : env.hashOk = false
      · simp [readIsAuthed, hw, hc, hh]
      · by_cases hg : env.getOk = false
        · simp [readIsAuthed, hw, hc, hh, hg]
        · simp [readIsAuthed, hw, hc, hh, hg, getAuthKeyAndValue, hstore]

/-- Witness for C5: SSR, a throwing storage read, and a never-written
identifier, each at concrete inputs. -/
theorem claim_C5_witness :
    readIsAuthed noWinEnv emptyState "pw" = ⟨false, emptyState, 0⟩ ∧
    (readIsAuthed getFailEnv emptyState "pw").result = false ∧
    (readIsAuthed winEnv emptyState "pw").result = false :=
  ⟨(claim_C5_read_fails_closed noWinEnv emptyState "pw").1 rfl,
   (claim_C5_read_fails_closed getFailEnv emptyState "pw").2.1 rfl (Or.inr rfl),
   (claim_C5_read_fails_closed winEnv emptyState "pw").2.2 rfl rfl⟩

/-- C10: a read that hits a thrown hashing or storage error returns `false`
and leaves the state (in particular the cache) unchanged, so a later read
for the same identifier under a working environment re-invokes the storage
backend (one `getItem` call) instead of being served from the cache. -/
theorem claim_C10_error_not_sticky (env : AuthEnv) (st : AuthState) (identifier : String)
    (hw : env.hash.hasWindow = true)
    (hc : getEntry st.cache identifier = none)
    (herr : env.hashOk = false ∨ env.getOk = false) :
    (readIsAuthed env st identifier).result = false ∧
    (readIsAuthed env st identifier).state = st ∧
    (∀ env' : AuthEnv, env'.hash.hasWindow = true → env'.hashOk = true → env'.getOk = true →
      (readIsAuthed env' (readIsAuthed env st identifier).state identifier).storeGets =
        1) := by
  have hmain : (readIsAuthed env st identifier).result = false ∧
      (readIsAuthed env st identifier).state = st := by
    rcases herr with hh | hg
    · simp [readIsAuthed, hw, hc, hh]
    · by_cases hh : env.hashOk = false
      · simp [readIsAuthed, hw, hc, hh]
      · simp [readIsAuthed, hw, hc, hh, hg]
  refine ⟨hmain.1, hmain.2, ?_⟩
  intro env' hw' hh' hg'
  rw [hmain.2]
  simp [readIsAuthed, hw', hc, hh', hg']

/-- Witness for C10: a throwing `getItem`, then a successful retry that
reaches the store and finds the previously persisted pair. -/
theorem claim_C10_witness :
    (readIsAuthed getFailEnv authedState "pw").result = false ∧
    (readIsAuthed getFailEnv authedState "pw").state = authedState ∧
    (readIsAuthed winEnv (readIsAuthed getFailEnv authedState "pw").state "pw").storeGets =
      1 ∧
    (readIsAuthed winEnv (readIsAuthed getFailEnv authedState "pw").state "pw").result =
      true := by
  have h := claim_C10_error_not_sticky getFailEnv authedState "pw" rfl rfl (Or.inr rfl)
  exact ⟨h.1, h.2.1, h.2.2 winEnv rfl rfl rfl, by decide⟩

/-- Counterexample to C6 as stated: a first `readIsAuthed` call that hits a
thrown `getItem` resolves with `false` but does not populate the cache, so a
later call for the same identifier invokes the storage backend again (one
`getItem` call) and returns a different result (`true`, since the pair is
persisted). -/
theorem claim_C6_counterexample :
    (readIsAuthed getFailEnv authedState "pw").result = false ∧
    (readIsAuthed winEnv (readIsAuthed getFailEnv authedState "pw").state "pw").result =
      true ∧
    (readIsAuthed winEnv (readIsAuthed getFailEnv authedState "pw").state "pw").storeGets =
      1 := by
  decide

/-- C6 (amended): after one `readIsAuthed` call that completes its storage
comparison (window present, hashing and the storage read succeed — the only
case in which the cache is populated) resolves with result `r`, every later
call for the same identifier in a windowed context, with no intervening
`writeAuthed` for that identifier, returns `r` with zero storage-backend
invocations and an unchanged state, because the cache is consulted first. -/
theorem claim_C6_cache_short_circuit (env env' : AuthEnv) (st : AuthState)
    (identifier : String) (ops : List (AuthEnv × AuthOp))
    (hw : env.hash.hasWindow = true) (hh : env.hashOk = true) (hg : env.getOk = true)
    (hops : ∀ p ∈ ops, p.2 ≠ AuthOp.write identifier)
    (hw' : env'.hash.hasWindow = true) :
    readIsAuthed env' (runOps (readIsAuthed env st identifier).state ops) identifier =
      ⟨(readIsAuthed env st identifier).result,
        runOps (readIsAuthed env st identifier).state ops, 0⟩ := by
  have h1 := read_success_caches env st identifier hw hh hg
  have h2 := runOps_preserves_cache_noWrite ops _ identifier _ h1 hops
  exact read_cache_hit env' _ identifier _ hw' h2

/-- Witness for C6 (amended): a successful first read, an intervening write
for a different identifier, then a second read for the original one. -/
theorem claim_C6_witness :
    readIsAuthed winEnv
        (runOps (readIsAuthed winEnv authedState "pw").state
          [(winEnv, AuthOp.write "other")]) "pw" =
      ⟨(readIsAuthed winEnv authedState "pw").result,
        runOps (readIsAuthed winEnv authedState "pw").state
          [(winEnv, AuthOp.write "other")], 0⟩ ∧
    (readIsAuthed winEnv authedState "pw").result = true :=
  ⟨claim_C6_cache_short_circuit winEnv winEnv authedState "pw"
      [(winEnv, AuthOp.write "other")] rfl rfl rfl (by decide) rfl,
   by decide⟩

/-! ### Claims about the remote verification client -/

/-- C1: for every call that reaches dispatch (window present, URL resolved):
a rejection whose thrown value passes the abort-error test is classified as
`TIMEOUT` (spec: timeout); any other rejection is classified as `NETWORK`
(spec: network-failure); and on every dispatch-reaching exit path the timer
started at dispatch is cleared before the call returns. -/
theorem claim_C1_catch_classification (env : VerifyEnv) (url : String)
    (hw : env.hasWindow = true) (hu : buildVerifyUrl env = some url) :
    (∀ e, env.fetchResult = .err e →
      (isAbortError e = true →
        (verifyPasswordRemotely env).result = .failure .TIMEOUT) ∧
      (isAbortError e = false →
        (verifyPasswordRemotely env).result = .failure .NETWORK)) ∧
    (verifyPasswordRemotely env).timerSet = true ∧
    (verifyPasswordRemotely env).timerCleared = true := by
  have htrace : (verifyPasswordRemotely env).timerSet = true ∧
      (verifyPasswordRemotely env).timerCleared = true := by
    rcases hfr : env.fetchResult with ⟨ok, body⟩ | e
    · cases ok
      · simp [verifyPasswordRemotely, hw, hu, hfr]
      · cases body with
        | none => simp [verifyPasswordRemotely, hw, hu, hfr]
        | some data =>
          by_cases h1 : isObjectType data = false
          · simp [verifyPasswordRemotely, hw, hu, hfr, h1]
          · by_cases h2 : isNull data = true
            · simp [verifyPasswordRemotely, hw, hu, hfr, h1, h2]
            · cases hbf : boolField (jsonField data "valid") with
              | none => simp [verifyPasswordRemotely, hw, hu, hfr, h1, h2, hbf]
              | some b => simp [verifyPasswordRemotely, hw, hu, hfr, h1, h2, hbf]
    · simp [verifyPasswordRemotely, hw, hu, hfr]
  refine ⟨?_, htrace.1, htrace.2⟩
  intro e he
  constructor <;> intro hab <;> simp [verifyPasswordRemotely, hw, hu, he, hab]

/-- Witness for C1: an aborted request classifies as `TIMEOUT` with the
timer cleared; an ordinary failure classifies as `NETWORK`. -/
theorem claim_C1_witness :
    (verifyPasswordRemotely abortEnv).result = .failure .TIMEOUT ∧
    (verifyPasswordRemotely abortEnv).timerCleared = true ∧
    (verifyPasswordRemotely netFailEnv).result = .failure .NETWORK :=
  ⟨((claim_C1_catch_classification abortEnv "https://api.example.com/ah-verify" rfl
      (by decide)).1 _ rfl).1 (by decide),
   (claim_C1_catch_classification abortEnv "https://api.example.com/ah-verify" rfl
      (by decide)).2.2,
   ((claim_C1_catch_classification netFailEnv "https://api.example.com/ah-verify" rfl
      (by decide)).1 _ rfl).2 (by decide)⟩

/-- C7: with no window the call returns `NO_WINDOW` (spec:
no-runtime-context) before URL resolution is even consulted; with a window
but no resolvable URL it returns `NO_BASE_URL` (spec:
endpoint-not-configured) with no fetch dispatched, no timer started and no
body read. -/
theorem claim_C7_unconfigured (env : VerifyEnv) :
    (env.hasWindow = false →
      verifyPasswordRemotely env = ⟨.failure .NO_WINDOW, false, false, false, false⟩) ∧
    (env.hasWindow = true → buildVerifyUrl env = none →
      verifyPasswordRemotely env = ⟨.failure .NO_BASE_URL, false, false, false, false⟩) := by
  constructor
  · intro hw
    simp [verifyPasswordRemotely, hw]
  · intro hw hu
    simp [verifyPasswordRemotely, hw, hu]

/-- Witness for C7: no-window precedence over an unresolvable URL, missing
base URL, and a throwing URL constructor, each with no fetch dispatched. -/
theorem claim_C7_witness :
    verifyPasswordRemotely noWinVerifyEnv =
      ⟨.failure .NO_WINDOW, false, false, false, false⟩ ∧
    verifyPasswordRemotely noBaseEnv =
      ⟨.failure .NO_BASE_URL, false, false, false, false⟩ ∧
    verifyPasswordRemotely badUrlEnv =
      ⟨.failure .NO_BASE_URL, false, false, false, false⟩ :=
  ⟨(claim_C7_unconfigured noWinVerifyEnv).1 rfl,
   (claim_C7_unconfigured noBaseEnv).2 rfl rfl,
   (claim_C7_unconfigured badUrlEnv).2 rfl (by decide)⟩

/-- C8: for a dispatch-reaching call with an ok-status response, a body that
fails to parse yields `BAD_RESPONSE`; a parsed body that is not a non-null
object with a boolean `valid` field (equivalently: property lookup of
`valid` does not produce a boolean, which only a non-null object can) yields
`BAD_RESPONSE`; a boolean `valid` field `b` yields `{ok: true, valid: b}`.
A non-ok status yields `BAD_STATUS` without reading the body. -/
theorem claim_C8_response_validation (env : VerifyEnv) (url : String)
    (hw : env.hasWindow = true) (hu : buildVerifyUrl env = some url) :
    (∀ body, env.fetchResult = .resp true body →
      ((body = none → (verifyPasswordRemotely env).result = .failure .BAD_RESPONSE) ∧
       (∀ data, body = some data → boolField (jsonField data "valid") = none →
         (verifyPasswordRemotely env).result = .failure .BAD_RESPONSE) ∧
       (∀ data b, body = some data → boolField (jsonField data "valid") = some b →
         (verifyPasswordRemotely env).result = .success b))) ∧
    (∀ body, env.fetchResult = .resp false body →
      (verifyPasswordRemotely env).result = .failure .BAD_STATUS ∧
      (verifyPasswordRemotely env).bodyRead = false) := by
  refine ⟨?_, ?_⟩
  · intro body hb
    refine ⟨?_, ?_, ?_⟩
    · intro hnone
      subst hnone
      simp [verifyPasswordRemotely, hw, hu, hb]
    · intro data hd hshape
      subst hd
      cases data with
      | jnull => simp [verifyPasswordRemotely, hw, hu, hb, isObjectType, isNull]
      | jbool b => simp [verifyPasswordRemotely, hw, hu, hb, isObjectType]
      | jnum n => simp [verifyPasswordRemotely, hw, hu, hb, isObjectType]
      | jstr s => simp [verifyPasswordRemotely, hw, hu, hb, isObjectType]
      | jarr xs =>
        simp [verifyPasswordRemotely, hw, hu, hb, isObjectType, isNull, jsonField, boolField]
      | jobj fields =>
        simp only [jsonField] at hshape
        simp [verifyPasswordRemotely, hw, hu, hb, isObjectType, isNull, jsonField, hshape]
    · intro data b hd hshape
      subst hd
      cases data with
      | jobj fields =>
        simp only [jsonField] at hshape
        simp [verifyPasswordRemotely, hw, hu, hb, isObjectType, isNull, jsonField, hshape]
      | jnull => simp [jsonField, boolField] at hshape
      | jbool b0 => simp [jsonField, boolField] at hshape
      | jnum n => simp [jsonField, boolField] at hshape
      | jstr s => simp [jsonField, boolField] at hshape
      | jarr xs => simp [jsonField, boolField] at hshape
  · intro body hb
    constructor <;> simp [verifyPasswordRemotely, hw, hu, hb]

/-- Witness for C8: the bad-shape body, the happy path, a bad status (with
the body unread), and an unparseable body. -/
theorem claim_C8_witness :
    (verifyPasswordRemotely badShapeEnv).result = .failure .BAD_RESPONSE ∧
    (verifyPasswordRemotely happyEnv).result = .success true ∧
    (verifyPasswordRemotely badStatusEnv).result = .failure .BAD_STATUS ∧
    (verifyPasswordRemotely badStatusEnv).bodyRead = false ∧
    (verifyPasswordRemotely parseFailEnv).result = .failure .BAD_RESPONSE :=
  ⟨((claim_C8_response_validation badShapeEnv "https://api.example.com/ah-verify" rfl
      (by decide)).1 _ rfl).2.1 _ rfl (by decide),
   ((claim_C8_response_validation happyEnv "https://api.example.com/ah-verify" rfl
      (by decide)).1 _ rfl).2.2 _ true rfl (by decide),
   ((claim_C8_response_validation badStatusEnv "https://api.example.com/ah-verify" rfl
      (by decide)).2 _ rfl).1,
   ((claim_C8_response_validation badStatusEnv "https://api.example.com/ah-verify" rfl
      (by decide)).2 _ rfl).2,
   ((claim_C8_response_validation parseFailEnv "https://api.example.com/ah-verify" rfl
      (by decide)).1 _ rfl).1 rfl⟩

end AccessHood
